import Mathlib

/-!
Verification of the core of `testangel-browser` (a browser-automation
instruction engine): the shell-like argument splitter `string_to_args`,
the element-handle codec (`serialise_elem` / `deserialise_elem`), and the
session lifecycle instructions (`browser-connect`, `browser-quit`, and the
`Drop` teardown of the engine state).

The Rust source is embedded shallowly: pure functions become Lean
functions over `List Char` / `String`, the stateful instruction closures
become explicit state-passing functions, and the effectful WebDriver /
process-spawning environment is passed in as an oracle record together
with an event trace recording which effects were performed.
-/

namespace TestangelBrowser

/-! ## `string_to_args` (src/lib.rs, lines 650-691)

The Rust loop keeps four pieces of mutable state: the accumulated `args`,
the `quoted` and `escaped` flags, and the current token `buffer`.  We model
the buffer as a `List Char` (Rust pushes single chars onto a `String`). -/

structure ArgsState where
  args : List String
  quoted : Bool
  escaped : Bool
  buffer : List Char
deriving Repr, DecidableEq

/-- One iteration of the `for ch in s.chars()` loop of `string_to_args`,
mirroring the Rust `match ch` arm for arm. -/
def s2aStep (st : ArgsState) (ch : Char) : ArgsState :=
  if ch = '"' then
    if st.escaped then
      { st with buffer := st.buffer ++ ['"'], escaped := false }
    else
      { st with quoted := !st.quoted, escaped := false }
  else if ch = '\\' then
    { st with escaped := true }
  else if ch = ' ' then
    if st.quoted then
      { st with buffer := st.buffer ++ [' '], escaped := false }
    else
      { st with args := st.args ++ [String.mk st.buffer], buffer := [], escaped := false }
  else
    { st with buffer := st.buffer ++ [ch], escaped := false }

/-- The state at the start of `string_to_args`. -/
def s2aInit : ArgsState := ⟨[], false, false, []⟩

/-- The loop of `string_to_args`, run over a character list. -/
def s2aRun (l : List Char) : ArgsState := l.foldl s2aStep s2aInit

/-- The final `if !quoted && !buffer.is_empty() { args.push(buffer); }`
of `string_to_args`. -/
def s2aFinish (st : ArgsState) : List String :=
  if !st.quoted && !st.buffer.isEmpty then st.args ++ [String.mk st.buffer]
  else st.args

/-- `fn string_to_args(s) -> Vec<String>` from src/lib.rs. -/
def string_to_args (s : String) : List String := s2aFinish (s2aRun s.data)

/-- Tokens separated by single spaces, as a character list.  Used to state
the general splitting law of `string_to_args`. -/
def joinTokens : List (List Char) → List Char
  | [] => []
  | [t] => t
  | t :: u :: rest => t ++ ' ' :: joinTokens (u :: rest)

/-- A plain token: non-empty and free of the three characters the loop
treats specially (space, double quote, backslash). -/
def plainToken (t : String) : Prop :=
  t.data ≠ [] ∧ ∀ c ∈ t.data, c ≠ ' ' ∧ c ≠ '"' ∧ c ≠ '\\'

instance (t : String) : Decidable (plainToken t) := by
  unfold plainToken; infer_instance

theorem foldl_s2aStep_plain (t : List Char) : ∀ st : ArgsState,
    st.escaped = false → (∀ c ∈ t, c ≠ ' ' ∧ c ≠ '"' ∧ c ≠ '\\') →
    List.foldl s2aStep st t = { st with buffer := st.buffer ++ t } := by
  induction t with
  | nil => intro st hesc _; simp
  | cons c t ih =>
      intro st hesc h
      obtain ⟨hs, hq, hb⟩ := h c (by simp)
      have hstep : s2aStep st c = { st with buffer := st.buffer ++ [c] } := by
        unfold s2aStep
        rw [if_neg hq, if_neg hb, if_neg hs]
        cases st
        simp_all
      rw [List.foldl_cons, hstep,
        ih { st with buffer := st.buffer ++ [c] } hesc
          (fun d hd => h d (by simp [hd]))]
      simp

theorem mk_data (s : String) : String.mk s.data = s := rfl

theorem foldl_s2aStep_plain_nil (t : List Char) (args : List String)
    (h : ∀ c ∈ t, c ≠ ' ' ∧ c ≠ '"' ∧ c ≠ '\\') :
    List.foldl s2aStep ⟨args, false, false, []⟩ t = ⟨args, false, false, t⟩ := by
  rw [foldl_s2aStep_plain t ⟨args, false, false, []⟩ rfl h]
  simp

theorem s2aFinish_foldl_join (ts : List String)
    (h : ∀ t ∈ ts, plainToken t) : ∀ args : List String,
    s2aFinish (List.foldl s2aStep ⟨args, false, false, []⟩
      (joinTokens (ts.map String.data))) = args ++ ts := by
  induction ts with
  | nil => intro args; simp [joinTokens, s2aFinish]
  | cons t ts ih =>
      intro args
      obtain ⟨hne, hch⟩ := h t (by simp)
      cases ts with
      | nil =>
          simp only [List.map, joinTokens]
          rw [foldl_s2aStep_plain_nil t.data args hch]
          have hie : t.data.isEmpty = false := by
            cases hd : t.data with
            | nil => exact absurd hd hne
            | cons a l => simp
          unfold s2aFinish
          simp [hie, mk_data]
      | cons u rest =>
          simp only [List.map, joinTokens]
          rw [List.foldl_append, foldl_s2aStep_plain_nil t.data args hch,
            List.foldl_cons]
          have hstep : s2aStep ⟨args, false, false, t.data⟩ ' ' =
              ⟨args ++ [String.mk t.data], false, false, []⟩ := rfl
          rw [hstep, mk_data]
          have := ih (fun v hv => h v (by simp [hv])) (args ++ [t])
          simp only [List.map] at this
          rw [this]
          simp

/-- C3: `string_to_args` splits at unquoted spaces (general law for plain
tokens joined by single spaces), keeps spaces inside a double-quoted
section as part of the current token, treats a backslash as escaping a
following double quote (kept literally, quote mode not toggled), and maps
the empty input to the empty sequence; in particular on
`arga argb argc` it yields `[arga, argb, argc]` and on
`arga "argb argc"` it yields `[arga, argb argc]`. -/
theorem string_to_args_splits_at_unquoted_spaces :
    (∀ ts : List String, (∀ t ∈ ts, plainToken t) →
      string_to_args (String.mk (joinTokens (ts.map String.data))) = ts)
    ∧ string_to_args "" = []
    ∧ string_to_args "arga argb argc" = ["arga", "argb", "argc"]
    ∧ string_to_args "arga \"argb argc\"" = ["arga", "argb argc"]
    ∧ string_to_args "arga \"argb \\\"argc\"" = ["arga", "argb \"argc"] :=
  ⟨fun ts h => by
      have := s2aFinish_foldl_join ts h []
      simpa [string_to_args, s2aRun, s2aInit] using this,
    by decide, by decide, by decide, by decide⟩

/-- Witness for C3 at a concrete token list and the concrete inputs. -/
theorem string_to_args_splits_at_unquoted_spaces_witness :
    string_to_args (String.mk (joinTokens ([("x" : String), "yz"].map String.data)))
      = ["x", "yz"] :=
  string_to_args_splits_at_unquoted_spaces.1 ["x", "yz"] (by decide)

/-- C4 counterexample: on `a␣␣b` (two consecutive unquoted spaces) the
second space pushes the then-empty buffer, so an empty token is emitted;
the claim that only non-empty tokens are returned is false. -/
theorem string_to_args_empty_token_counterexample :
    string_to_args "a  b" = ["a", "", "b"]
    ∧ ¬ ∀ (s : String), ∀ t ∈ string_to_args s, t ≠ "" :=
  ⟨by decide, fun h => h "a  b" "" (by decide) rfl⟩

/-- C4 amended: each unquoted separator space pushes the current buffer
even when it is empty, so consecutive or leading unquoted spaces do emit
empty tokens; only the final end-of-input buffer is suppressed when empty,
so an empty buffer at end of input never adds a token. -/
theorem string_to_args_empty_tokens_amended :
    (∀ s : String, (s2aRun s.data).buffer = [] →
      string_to_args s = (s2aRun s.data).args)
    ∧ string_to_args "a  b" = ["a", "", "b"]
    ∧ string_to_args " a" = ["", "a"]
    ∧ string_to_args "a " = ["a"]
    ∧ string_to_args "  " = ["", ""] :=
  ⟨fun s h => by simp [string_to_args, s2aFinish, h],
    by decide, by decide, by decide, by decide⟩

/-- Witness for the amended C4 at the concrete input `a␣`. -/
theorem string_to_args_empty_tokens_amended_witness :
    string_to_args "a " = (s2aRun "a ".data).args :=
  string_to_args_empty_tokens_amended.1 "a " (by decide)

theorem foldl_s2aStep_quoted (t : List Char) : ∀ st : ArgsState,
    st.quoted = true → (∀ c ∈ t, c ≠ '"') →
    (List.foldl s2aStep st t).quoted = true
    ∧ (List.foldl s2aStep st t).args = st.args := by
  induction t with
  | nil => intro st hq _; exact ⟨hq, rfl⟩
  | cons c t ih =>
      intro st hq h
      have hc : c ≠ '"' := h c (by simp)
      have hpres : (s2aStep st c).quoted = true ∧ (s2aStep st c).args = st.args := by
        unfold s2aStep
        rw [if_neg hc]
        by_cases hb : c = '\\'
        · simp [hb, hq]
        · rw [if_neg hb]
          by_cases hs : c = ' '
          · simp [hs, hq]
          · simp [hs, hq]
      rw [List.foldl_cons]
      obtain ⟨h1, h2⟩ := ih (s2aStep st c) hpres.1 (fun d hd => h d (by simp [hd]))
      exact ⟨h1, h2.trans hpres.2⟩

/-- C5: when the input ends inside an unterminated double-quoted section
(decomposed as a prefix `p` that ends outside quotes and unescaped, the
opening quote, and a tail `t` containing no further quote), the buffered
partial token is discarded and the result is exactly the tokens completed
within `p`, before the unterminated section began. -/
theorem string_to_args_unterminated_quote_drops_buffer
    (p t : List Char)
    (hq : (s2aRun p).quoted = false) (he : (s2aRun p).escaped = false)
    (ht : ∀ c ∈ t, c ≠ '"') :
    string_to_args (String.mk (p ++ '"' :: t)) = (s2aRun p).args := by
  have hstep : s2aStep (s2aRun p) '"' =
      { s2aRun p with quoted := true, escaped := false } := by
    unfold s2aStep
    simp [he, hq]
  obtain ⟨hfq, hfa⟩ := foldl_s2aStep_quoted t
    { s2aRun p with quoted := true, escaped := false } rfl ht
  show s2aFinish (List.foldl s2aStep s2aInit (p ++ '"' :: t)) = (s2aRun p).args
  rw [List.foldl_append, List.foldl_cons]
  show s2aFinish (List.foldl s2aStep (s2aStep (s2aRun p) '"') t) = (s2aRun p).args
  rw [hstep]
  unfold s2aFinish
  rw [hfq, hfa]
  simp

/-- Witness for C5 at the concrete input `a␣"bc`: the partial token `bc`
is discarded and only the completed token `a` is returned. -/
theorem string_to_args_unterminated_quote_drops_buffer_witness :
    string_to_args (String.mk ("a ".data ++ '"' :: "bc".data)) = ["a"] := by
  have h := string_to_args_unterminated_quote_drops_buffer "a ".data "bc".data
    (by decide) (by decide) (by decide)
  rw [h]
  decide

theorem notMemPush {a b : Char} {l : List Char} (h : a ∉ l) (hne : a ≠ b) :
    a ∉ l ++ [b] := by
  intro hm
  rcases List.mem_append.mp hm with hc | hc
  · exact h hc
  · exact hne (List.mem_singleton.mp hc)

theorem s2aStep_no_backslash (st : ArgsState) (c : Char)
    (ha : ∀ a ∈ st.args, '\\' ∉ a.data) (hb : '\\' ∉ st.buffer) :
    (∀ a ∈ (s2aStep st c).args, '\\' ∉ a.data) ∧ '\\' ∉ (s2aStep st c).buffer := by
  unfold s2aStep
  by_cases hq : c = '"'
  · rw [if_pos hq]
    by_cases he : st.escaped = true
    · rw [if_pos he]
      exact ⟨ha, notMemPush hb (by decide)⟩
    · rw [if_neg he]
      exact ⟨ha, hb⟩
  · rw [if_neg hq]
    by_cases hbs : c = '\\'
    · rw [if_pos hbs]
      exact ⟨ha, hb⟩
    · rw [if_neg hbs]
      by_cases hs : c = ' '
      · rw [if_pos hs]
        by_cases hqd : st.quoted = true
        · rw [if_pos hqd]
          exact ⟨ha, notMemPush hb (by decide)⟩
        · rw [if_neg hqd]
          refine ⟨?_, List.not_mem_nil _⟩
          intro a ham
          rcases List.mem_append.mp ham with h | h
          · exact ha a h
          · rw [List.mem_singleton] at h
            subst h
            exact hb
      · rw [if_neg hs]
        exact ⟨ha, notMemPush hb (fun h => hbs h.symm)⟩

theorem foldl_s2aStep_no_backslash (l : List Char) : ∀ st : ArgsState,
    (∀ a ∈ st.args, '\\' ∉ a.data) → '\\' ∉ st.buffer →
    (∀ a ∈ (List.foldl s2aStep st l).args, '\\' ∉ a.data)
    ∧ '\\' ∉ (List.foldl s2aStep st l).buffer := by
  induction l with
  | nil => intro st ha hb; exact ⟨ha, hb⟩
  | cons c l ih =>
      intro st ha hb
      rw [List.foldl_cons]
      obtain ⟨ha', hb'⟩ := s2aStep_no_backslash st c ha hb
      exact ih (s2aStep st c) ha' hb'

/-- C9: no token returned by `string_to_args` ever contains a backslash:
the backslash arm of the loop only sets the `escaped` flag and never
pushes the character, and every other arm pushes a non-backslash
character, so backslashes cannot pass through into argument content. -/
theorem string_to_args_no_backslash_in_tokens
    (s : String) (t : String) (ht : t ∈ string_to_args s) : '\\' ∉ t.data := by
  obtain ⟨ha, hb⟩ := foldl_s2aStep_no_backslash s.data s2aInit
    (by intro a h; exact absurd h (List.not_mem_nil a)) (List.not_mem_nil _)
  unfold string_to_args s2aFinish at ht
  set st := s2aRun s.data with hst
  by_cases hcond : (!st.quoted && !st.buffer.isEmpty) = true
  · rw [if_pos hcond] at ht
    simp only [List.mem_append, List.mem_singleton] at ht
    rcases ht with h | h
    · exact ha t h
    · subst h; exact hb
  · rw [if_neg hcond] at ht
    exact ha t ht

/-- Witness for C9 at the concrete input `a\b`: the backslash is consumed
and the single token `ab` contains no backslash. -/
theorem string_to_args_no_backslash_in_tokens_witness :
    '\\' ∉ ("ab" : String).data :=
  string_to_args_no_backslash_in_tokens "a\\b" "ab" (by decide)

/-! ## Element handle codec (src/utils.rs)

`serialise_elem` is `Ok(elem.to_json()?.to_string())` and
`deserialise_elem` is `serde_json::from_str` (error mapped to
`"Invalid element parameter: {e}"`) followed by `WebElement::from_json`
against the given session handle (error mapped to `"Invalid element: {e}"`).
The JSON machinery and the element binding live in the external crates
`serde_json` and `thirtyfour`; the spec treats them as an interface
("an opaque JSON document ... only parse/bind"), so they are modelled
below from the spec, restricted to the wire forms this codec exchanges:
single-field JSON objects mapping the W3C element key to an id string. -/

/-- Modelled from the spec: the wire-form of an element handle, "a
structured, serializable representation of an Element Handle
(backend-defined JSON document)" — here the single-field string object
produced by `thirtyfour`'s `WebElement::to_json`. -/
structure Json where
  key : String
  value : String
deriving Repr, DecidableEq

/-- Modelled from the spec: `serde_json` string escaping for the
characters that are special inside a JSON string (the double quote and
the backslash). -/
def escapeChar (c : Char) : List Char :=
  if c = '"' ∨ c = '\\' then ['\\', c] else [c]

def escapeList (l : List Char) : List Char := (l.map escapeChar).flatten

/-- Modelled from the spec: `serde_json`'s rendering (`Value::to_string`)
of the single-field string object wire form. -/
def renderJson (j : Json) : List Char :=
  '\x7b' :: '"' :: (escapeList j.key.data ++
    '"' :: ':' :: '"' :: (escapeList j.value.data ++ ['"', '\x7d']))

/-- Modelled from the spec: `serde_json` parsing of a JSON string body,
consuming characters up to an unescaped closing quote. -/
def parseStringBody : List Char → Option (List Char × List Char)
  | [] => none
  | c :: rest =>
    if c = '"' then some ([], rest)
    else if c = '\\' then
      match rest with
      | [] => none
      | d :: rest2 =>
        match parseStringBody rest2 with
        | none => none
        | some (body, rem) => some (d :: body, rem)
    else
      match parseStringBody rest with
      | none => none
      | some (body, rem) => some (c :: body, rem)

def parseValue (key rest2 : List Char) : Except String Json :=
  match parseStringBody rest2 with
  | none => Except.error "unterminated value string"
  | some (value, rest3) =>
    if rest3 = ['\x7d'] then Except.ok ⟨String.mk key, String.mk value⟩
    else Except.error "trailing characters after object"

def parseAfterKey (key : List Char) (rest1 : List Char) : Except String Json :=
  match rest1 with
  | ':' :: '"' :: rest2 => parseValue key rest2
  | _ => Except.error "expected string value after key"

def parseAfterBrace (rest : List Char) : Except String Json :=
  match parseStringBody rest with
  | none => Except.error "unterminated key string"
  | some (key, rest1) => parseAfterKey key rest1

/-- Modelled from the spec: `serde_json::from_str`, a total parser of the
wire-form subset that fails with a parse error on any other input. -/
def parseJson (s : String) : Except String Json :=
  match s.data with
  | '\x7b' :: '"' :: rest => parseAfterBrace rest
  | _ => Except.error "expected object"

/-- Modelled from the spec: the Session a wire form is bound to; the
backend's bookkeeping is the map from element ids to backend DOM nodes. -/
structure SessionHandle where
  knownElements : List (String × Nat)
deriving Repr, DecidableEq

/-- A live element handle: a backend-assigned identifier for one DOM node
within the current Session. -/
structure WebElement where
  elementId : String
deriving Repr, DecidableEq

/-- The backend node an element handle refers to under a session. -/
def backendNode (session : SessionHandle) (elem : WebElement) : Option Nat :=
  session.knownElements.lookup elem.elementId

/-- An element handle is live/valid in a session when the backend's
bookkeeping still maps its id to a node. -/
def validIn (session : SessionHandle) (elem : WebElement) : Bool :=
  (backendNode session elem).isSome

/-- The W3C WebDriver element-reference key used by `thirtyfour`. -/
def elementKey : String := "element-6066-11e4-a52e-4f735466cecf"

/-- Modelled from the spec: `thirtyfour`'s `WebElement::to_json`, the
canonical wire form of a live element. -/
def WebElement.to_json (elem : WebElement) : Json := ⟨elementKey, elem.elementId⟩

/-- Modelled from the spec: `thirtyfour`'s `WebElement::from_json`, which
"binds the parsed wire-form to the given Session", failing "if the backend
rejects the structure or the element no longer exists". -/
def WebElement.from_json (j : Json) (session : SessionHandle) : Except String WebElement :=
  if j.key = elementKey then
    if (session.knownElements.lookup j.value).isSome then Except.ok ⟨j.value⟩
    else Except.error "stale element reference"
  else Except.error "missing element reference key"

/-- `pub fn serialise_elem(elem) -> WebDriverResult<String>` from src/utils.rs. -/
def serialise_elem (elem : WebElement) : Except String String :=
  Except.ok (String.mk (renderJson elem.to_json))

/-- `pub fn deserialise_elem(handle, s) -> Result<WebElement, String>` from
src/utils.rs: parse the wire form (parse-kind error message on failure),
then bind it to the session (bind-kind error message on failure). -/
def deserialise_elem (handle : SessionHandle) (s : String) : Except String WebElement :=
  match parseJson s with
  | Except.error e => Except.error ("Invalid element parameter: " ++ e)
  | Except.ok json_elem =>
    match WebElement.from_json json_elem handle with
    | Except.error e => Except.error ("Invalid element: " ++ e)
    | Except.ok elem => Except.ok elem

theorem parseStringBody_cons_quote (rest : List Char) :
    parseStringBody ('"' :: rest) = some ([], rest) := by
  unfold parseStringBody
  rw [if_pos rfl]

theorem parseStringBody_cons_backslash (d : Char) (rest : List Char) :
    parseStringBody ('\\' :: d :: rest) =
      match parseStringBody rest with
      | none => none
      | some (body, rem) => some (d :: body, rem) := by
  rw [parseStringBody.eq_def]
  show (if ('\\' : Char) = '"' then some ([], d :: rest)
      else if ('\\' : Char) = '\\' then
        match d :: rest with
        | [] => none
        | d2 :: rest2 =>
          match parseStringBody rest2 with
          | none => none
          | some (body, rem) => some (d2 :: body, rem)
      else
        match parseStringBody (d :: rest) with
        | none => none
        | some (body, rem) => some ('\\' :: body, rem)) =
      match parseStringBody rest with
      | none => none
      | some (body, rem) => some (d :: body, rem)
  rw [if_neg (show ('\\' : Char) ≠ '"' by decide), if_pos rfl]

theorem parseStringBody_cons_plain (c : Char) (rest : List Char)
    (h1 : c ≠ '"') (h2 : c ≠ '\\') :
    parseStringBody (c :: rest) =
      match parseStringBody rest with
      | none => none
      | some (body, rem) => some (c :: body, rem) := by
  rw [parseStringBody.eq_def]
  show (if c = '"' then some ([], rest)
      else if c = '\\' then
        match rest with
        | [] => none
        | d :: rest2 =>
          match parseStringBody rest2 with
          | none => none
          | some (body, rem) => some (d :: body, rem)
      else
        match parseStringBody rest with
        | none => none
        | some (body, rem) => some (c :: body, rem)) =
      match parseStringBody rest with
      | none => none
      | some (body, rem) => some (c :: body, rem)
  rw [if_neg h1, if_neg h2]

theorem parseStringBody_escape (l : List Char) : ∀ rest : List Char,
    parseStringBody (escapeList l ++ '"' :: rest) = some (l, rest) := by
  induction l with
  | nil =>
      intro rest
      show parseStringBody ([] ++ '"' :: rest) = some ([], rest)
      rw [List.nil_append, parseStringBody_cons_quote]
  | cons c l ih =>
      intro rest
      by_cases hc : c = '"' ∨ c = '\\'
      · have hesc : escapeList (c :: l) = '\\' :: c :: escapeList l := by
          simp [escapeList, escapeChar, hc]
        rw [hesc, List.cons_append, List.cons_append,
          parseStringBody_cons_backslash, ih rest]
      · push_neg at hc
        have hesc : escapeList (c :: l) = c :: escapeList l := by
          simp [escapeList, escapeChar, hc.1, hc.2]
        rw [hesc, List.cons_append,
          parseStringBody_cons_plain c _ hc.1 hc.2, ih rest]

theorem parseAfterBrace_escape (l rest : List Char) :
    parseAfterBrace (escapeList l ++ '"' :: rest) = parseAfterKey l rest := by
  unfold parseAfterBrace
  rw [parseStringBody_escape]

theorem parseValue_escape (key l : List Char) :
    parseValue key (escapeList l ++ '"' :: ['\x7d']) =
      Except.ok ⟨String.mk key, String.mk l⟩ := by
  unfold parseValue
  rw [parseStringBody_escape]
  rfl

/-- The modelled parser inverts the modelled renderer on every wire form. -/
theorem parseJson_render (j : Json) :
    parseJson (String.mk (renderJson j)) = Except.ok j := by
  have h0 : parseJson (String.mk (renderJson j)) =
      parseAfterBrace (escapeList j.key.data ++
        '"' :: ':' :: '"' :: (escapeList j.value.data ++ ['"', '\x7d'])) := rfl
  rw [h0, parseAfterBrace_escape]
  have h1 : parseAfterKey j.key.data
      (':' :: '"' :: (escapeList j.value.data ++ ['"', '\x7d'])) =
      parseValue j.key.data (escapeList j.value.data ++ ['"', '\x7d']) := rfl
  rw [h1]
  have h2 : (escapeList j.value.data ++ ['"', '\x7d']) =
      escapeList j.value.data ++ '"' :: ['\x7d'] := rfl
  rw [h2, parseValue_escape]

/-- Binding the canonical wire form of a live element back to the same
session yields the same handle. -/
theorem from_json_to_json (session : SessionHandle) (elem : WebElement)
    (hvalid : validIn session elem = true) :
    WebElement.from_json elem.to_json session = Except.ok elem := by
  unfold WebElement.from_json WebElement.to_json
  rw [if_pos rfl]
  have h : (session.knownElements.lookup elem.elementId).isSome = true := hvalid
  rw [if_pos h]

/-- C1: for every element handle live in the current session, decoding the
string produced by encoding it under the same session succeeds and yields
a handle referring to the same backend node. -/
theorem serialise_deserialise_roundtrip (session : SessionHandle) (elem : WebElement)
    (hvalid : validIn session elem = true) :
    ∃ s : String, serialise_elem elem = Except.ok s
      ∧ ∃ elem2 : WebElement, deserialise_elem session s = Except.ok elem2
        ∧ backendNode session elem2 = backendNode session elem := by
  refine ⟨String.mk (renderJson elem.to_json), rfl, elem, ?_, rfl⟩
  unfold deserialise_elem
  rw [parseJson_render]
  show (match WebElement.from_json elem.to_json session with
    | Except.error e => Except.error ("Invalid element: " ++ e)
    | Except.ok elem2 => Except.ok elem2) = Except.ok elem
  rw [from_json_to_json session elem hvalid]

/-- Witness for C1: a concrete one-element session round-trips its handle. -/
theorem serialise_deserialise_roundtrip_witness :
    validIn ⟨[("abc", 7)]⟩ ⟨"abc"⟩ = true
    ∧ (∃ s : String, serialise_elem ⟨"abc"⟩ = Except.ok s
        ∧ ∃ elem2 : WebElement,
            deserialise_elem ⟨[("abc", 7)]⟩ s = Except.ok elem2
            ∧ backendNode ⟨[("abc", 7)]⟩ elem2
              = backendNode ⟨[("abc", 7)]⟩ ⟨"abc"⟩) :=
  ⟨by decide, serialise_deserialise_roundtrip ⟨[("abc", 7)]⟩ ⟨"abc"⟩ (by decide)⟩

/-- The parse-kind and bind-kind error messages never coincide: they
differ at character 15 (space versus colon). -/
theorem parse_bind_prefix_ne (e e' : String) :
    "Invalid element parameter: " ++ e ≠ "Invalid element: " ++ e' := by
  intro h
  have hd := congrArg String.data h
  rw [String.data_append, String.data_append] at hd
  simp at hd

/-- C2: `deserialise_elem` classifies its failures: when the wire-form
parse fails it reports the parse-kind message (`Invalid element
parameter: ...`) and never the bind-kind message, and when the parse
succeeds but binding to the session fails it reports the bind-kind
message (`Invalid element: ...`). -/
theorem deserialise_error_classification (session : SessionHandle) (s : String) :
    (∀ e : String, parseJson s = Except.error e →
      deserialise_elem session s = Except.error ("Invalid element parameter: " ++ e)
      ∧ ∀ e' : String,
          deserialise_elem session s ≠ Except.error ("Invalid element: " ++ e'))
    ∧ (∀ (j : Json) (e : String), parseJson s = Except.ok j →
        WebElement.from_json j session = Except.error e →
        deserialise_elem session s = Except.error ("Invalid element: " ++ e)) := by
  constructor
  · intro e he
    have hde : deserialise_elem session s =
        Except.error ("Invalid element parameter: " ++ e) := by
      unfold deserialise_elem
      rw [he]
    refine ⟨hde, ?_⟩
    intro e' hcontra
    rw [hde] at hcontra
    exact parse_bind_prefix_ne e e' (Except.error.inj hcontra)
  · intro j e hok hbind
    unfold deserialise_elem
    rw [hok]
    show (match WebElement.from_json j session with
      | Except.error e2 => Except.error ("Invalid element: " ++ e2)
      | Except.ok elem2 => Except.ok elem2) = _
    rw [hbind]

/-- Witness for C2: a malformed string gets the parse-kind message; a
well-formed wire form with the wrong key gets the bind-kind message. -/
theorem deserialise_error_classification_witness :
    deserialise_elem ⟨[]⟩ "x" = Except.error "Invalid element parameter: expected object"
    ∧ deserialise_elem ⟨[]⟩ (String.mk (renderJson ⟨"a", "b"⟩)) =
        Except.error "Invalid element: missing element reference key" :=
  ⟨((deserialise_error_classification ⟨[]⟩ "x").1 "expected object" rfl).1,
    (deserialise_error_classification ⟨[]⟩ (String.mk (renderJson ⟨"a", "b"⟩))).2
      ⟨"a", "b"⟩ "missing element reference key" (parseJson_render ⟨"a", "b"⟩) rfl⟩

/-! ## Session lifecycle (src/lib.rs)

The `browser-connect` and `browser-quit` instruction closures and the
`Drop` impl of `State`.  The tokio runtime is modelled as a unit value;
WebDriver sessions and child processes are abstract `Nat` handles.  The
effectful WebDriver/process calls are supplied by a `ConnectWorld` oracle
and the effects actually performed are recorded in an event trace. -/

/-- `struct State` from src/lib.rs (durations in milliseconds). -/
structure State where
  rt : Option Unit
  driver : Option Nat
  child_driver : Option Nat
  timeout : Nat
  interval : Nat
deriving Repr, DecidableEq

/-- `impl Default for State`: no runtime, no driver, no child process,
10 s timeout, 100 ms interval. -/
def State.default : State := ⟨none, none, none, 10000, 100⟩

/-- Outcome of the `Drop` impl of `State`. -/
inductive DropOutcome where
  | noChild
  | killed (child : Nat)
  | panicked (child : Nat)
deriving Repr, DecidableEq

/-- `impl Drop for State` (src/lib.rs:31-37): if a child driver is
recorded, `child.kill()` runs and `.expect(...)` panics when the kill
fails; `killSucceeds` stands for the OS outcome of the kill. -/
def State.dropTeardown (s : State) (killSucceeds : Bool) : DropOutcome :=
  match s.child_driver with
  | some child => if killSucceeds then DropOutcome.killed child
                  else DropOutcome.panicked child
  | none => DropOutcome.noChild

/-- The message of `EngineError::NotInitialised`. -/
def notInitialisedMessage : String :=
  "The browser robot hasn't been initialised before use."

/-- The `browser-quit` instruction (src/lib.rs:115-125): `rt.take()` then
`driver.take()`, each failing with `NotInitialised` when absent (the
first `take` clears `rt` even when the driver is missing), then
`driver.quit()`, whose backend result is passed in as
`driverQuitResult`.  `child_driver` is never touched. -/
def browser_quit (s : State) (driverQuitResult : Except String Unit) :
    Except String Unit × State :=
  match s.rt with
  | none => (Except.error notInitialisedMessage, { s with rt := none })
  | some _ =>
    match s.driver with
    | none => (Except.error notInitialisedMessage, { s with rt := none })
    | some _ => (driverQuitResult, { s with rt := none, driver := none })

/-- The environment variables read by `browser-connect`. -/
structure Env where
  use_chrome : Option String
  use_firefox : Option String
  webdriver_port : Option String
  chromedriver_args : Option String
  chrome_args : Option String
  geckodriver_args : Option String
  firefox_args : Option String
deriving Repr, DecidableEq

inductive Browser where
  | chrome
  | firefox
deriving Repr, DecidableEq

/-- Effects performed by `browser-connect`, in order. -/
inductive ConnectEvent where
  | triedDirect (b : Browser) (port : String)
  | spawned (path : String) (args : List String)
  | openedAfterSpawn (b : Browser) (port : String) (browserArgs : List String)
  | navigated (driver : Nat) (uri : String)
deriving Repr, DecidableEq

def ConnectEvent.isSpawn : ConnectEvent → Bool
  | ConnectEvent.spawned _ _ => true
  | _ => false

/-- Oracle for the effectful calls of `browser-connect`: the initial
direct `WebDriver::new` against the port, `Command::spawn` of the driver
executable, the post-spawn `WebDriver::new`, and `driver.goto`. -/
structure ConnectWorld where
  directOpen : Browser → String → Option Nat
  spawn : String → List String → Except String Nat
  openAfterSpawn : Browser → String → List String → Except String Nat
  goto : Nat → Except String Unit

/-- `DEFAULT_URI` from src/lib.rs: the embedded placeholder page. -/
def DEFAULT_URI : String := "data:text/html;base64,PGh0bWw+PGhlYWQ+PHRpdGxlPkJyb3dzZXIgQXV0b21hdGlvbjwvdGl0bGU+PC9oZWFkPjxib2R5IHN0eWxlPSJvdmVyZmxvdzpoaWRkZW47Ij48aDEgc3R5bGU9ImRpc3BsYXk6ZmxleDtqdXN0aWZ5LWNvbnRlbnQ6Y2VudGVyO2FsaWduLWl0ZW1zOmNlbnRlcjtoZWlnaHQ6MTAwJTsiPlRlc3RBbmdlbCBCcm93c2VyIEF1dG9tYXRpb24gc3RhcnRpbmcuLi48L2gxPjwvYm9keT48L2h0bWw+"

/-- Tail of `browser-connect`: `rt.block_on(driver.goto(DEFAULT_URI))?`
then `state.driver = Some(driver)` — the driver is stored only after the
navigation succeeds. -/
def connectFinish (s : State) (driver : Nat) (w : ConnectWorld)
    (evs : List ConnectEvent) : Except String Unit × State × List ConnectEvent :=
  match w.goto driver with
  | Except.error e =>
      (Except.error e, s, evs ++ [ConnectEvent.navigated driver DEFAULT_URI])
  | Except.ok _ =>
      (Except.ok (), { s with driver := some driver },
        evs ++ [ConnectEvent.navigated driver DEFAULT_URI])

/-- One backend branch of `browser-connect` (the chrome and firefox
branches of src/lib.rs:62-102 are symmetric): try a direct session open
against the port; on failure spawn the driver executable with the parsed
process arguments (recording the child handle only when the spawn
succeeds), then open a session with the parsed browser arguments. -/
def connectWithBackend (s : State) (b : Browser) (driverPath : String)
    (port : String) (procArgsStr browserArgsStr : String) (failMsg : String)
    (w : ConnectWorld) : Except String Unit × State × List ConnectEvent :=
  match w.directOpen b port with
  | some driver => connectFinish s driver w [ConnectEvent.triedDirect b port]
  | none =>
    let args := string_to_args procArgsStr
    let browser_args := string_to_args browserArgsStr
    match w.spawn driverPath args with
    | Except.error e =>
        (Except.error (failMsg ++ e), s, [ConnectEvent.triedDirect b port])
    | Except.ok child =>
        let s1 := { s with child_driver := some child }
        let evs := [ConnectEvent.triedDirect b port,
          ConnectEvent.spawned driverPath args]
        match w.openAfterSpawn b port browser_args with
        | Except.error e =>
            (Except.error e, s1,
              evs ++ [ConnectEvent.openedAfterSpawn b port browser_args])
        | Except.ok driver =>
            connectFinish s1 driver w
              (evs ++ [ConnectEvent.openedAfterSpawn b port browser_args])

/-- The message returned when no backend is configured (src/lib.rs:105). -/
def notImplementedMessage : String :=
  "This functionality is currently not implemented in the engine. Please set either `TA_BROWSER_USE_CHROME` or `TA_BROWSER_USE_FIREFOX` and try again."

/-- The `browser-connect` instruction (src/lib.rs:49-114): build the
runtime, then select the backend — chrome first, else firefox, else fail
with `notImplementedMessage` (ports default to 9515 / 4444 when
`TA_BROWSER_WEBDRIVER_PORT` is unset). -/
def browser_connect (s0 : State) (env : Env) (w : ConnectWorld) :
    Except String Unit × State × List ConnectEvent :=
  let s := { s0 with rt := some () }
  match env.use_chrome with
  | some chromedriver_path =>
      connectWithBackend s Browser.chrome chromedriver_path
        (env.webdriver_port.getD "9515")
        (env.chromedriver_args.getD "") (env.chrome_args.getD "")
        "Failed to start chromedriver: " w
  | none =>
    match env.use_firefox with
    | some geckodriver_path =>
        connectWithBackend s Browser.firefox geckodriver_path
          (env.webdriver_port.getD "4444")
          (env.geckodriver_args.getD "") (env.firefox_args.getD "")
          "Failed to start geckodriver: " w
    | none => (Except.error notImplementedMessage, s, [])

theorem connectFinish_child (s : State) (driver : Nat) (w : ConnectWorld)
    (evs : List ConnectEvent) :
    (connectFinish s driver w evs).2.1.child_driver = s.child_driver
    ∧ (connectFinish s driver w evs).2.2 =
        evs ++ [ConnectEvent.navigated driver DEFAULT_URI]
    ∧ (w.goto driver = Except.ok () →
        (connectFinish s driver w evs).2.1.driver = some driver) := by
  unfold connectFinish
  cases hg : w.goto driver with
  | error e =>
      exact ⟨rfl, rfl, fun h => Except.noConfusion (hg ▸ h :
        (Except.error e : Except String Unit) = Except.ok ())⟩
  | ok u => cases u; exact ⟨rfl, rfl, fun _ => rfl⟩

theorem connectWithBackend_trace_head (s : State) (b : Browser)
    (p port pa ba m : String) (w : ConnectWorld) :
    ∃ rest : List ConnectEvent,
      (connectWithBackend s b p port pa ba m w).2.2 =
        ConnectEvent.triedDirect b port :: rest := by
  simp only [connectWithBackend]
  cases hdo : w.directOpen b port with
  | some driver =>
      obtain ⟨-, h2, -⟩ := connectFinish_child s driver w
        [ConnectEvent.triedDirect b port]
      exact ⟨[ConnectEvent.navigated driver DEFAULT_URI], by rw [h2]; rfl⟩
  | none =>
      cases hsp : w.spawn p (string_to_args pa) with
      | error e => exact ⟨[], rfl⟩
      | ok child =>
          cases hop : w.openAfterSpawn b port (string_to_args ba) with
          | error e => exact ⟨_, rfl⟩
          | ok driver =>
              obtain ⟨-, h2, -⟩ := connectFinish_child
                { s with child_driver := some child } driver w
                ([ConnectEvent.triedDirect b port,
                  ConnectEvent.spawned p (string_to_args pa)] ++
                  [ConnectEvent.openedAfterSpawn b port (string_to_args ba)])
              exact ⟨[ConnectEvent.spawned p (string_to_args pa),
                ConnectEvent.openedAfterSpawn b port (string_to_args ba),
                ConnectEvent.navigated driver DEFAULT_URI], by rw [h2]; rfl⟩

/-- C6: at Session Manager teardown a recorded child driver process is
always killed: `browser-quit` never clears or kills the `child_driver`
field (so a prior quit cannot skip the kill), a recorded child always
yields a kill attempt at drop, and a failed kill panics (surfaces loudly)
instead of being ignored. -/
theorem teardown_kills_child_unconditionally :
    (∀ (s : State) (r : Except String Unit),
      (browser_quit s r).2.child_driver = s.child_driver)
    ∧ (∀ (s : State) (child : Nat), s.child_driver = some child →
        (∀ killSucceeds : Bool,
          State.dropTeardown s killSucceeds ≠ DropOutcome.noChild)
        ∧ State.dropTeardown s true = DropOutcome.killed child
        ∧ State.dropTeardown s false = DropOutcome.panicked child) := by
  constructor
  · intro s r
    obtain ⟨rt, dr, cd, t, i⟩ := s
    cases rt <;> cases dr <;> rfl
  · intro s child hc
    refine ⟨?_, ?_, ?_⟩
    · intro b
      unfold State.dropTeardown
      rw [hc]
      cases b <;> simp
    · unfold State.dropTeardown
      rw [hc]
      rfl
    · unfold State.dropTeardown
      rw [hc]
      rfl

/-- Witness for C6 at a concrete state holding child process 5. -/
theorem teardown_kills_child_unconditionally_witness :
    (browser_quit ⟨some (), some 3, some 5, 10000, 100⟩ (Except.ok ())).2.child_driver
        = some 5
    ∧ State.dropTeardown ⟨none, none, some 5, 10000, 100⟩ true = DropOutcome.killed 5
    ∧ State.dropTeardown ⟨none, none, some 5, 10000, 100⟩ false
        = DropOutcome.panicked 5 :=
  ⟨teardown_kills_child_unconditionally.1 ⟨some (), some 3, some 5, 10000, 100⟩
      (Except.ok ()),
    (teardown_kills_child_unconditionally.2 ⟨none, none, some 5, 10000, 100⟩ 5 rfl).2.1,
    (teardown_kills_child_unconditionally.2 ⟨none, none, some 5, 10000, 100⟩ 5 rfl).2.2⟩

/-- C7: whenever the initial direct session open succeeds, the running
driver is adopted and no child process is spawned: the `child_driver`
field stays `none`, the trace is exactly the direct try followed by the
navigation (no spawn event), and on successful navigation the adopted
driver is stored. -/
theorem connect_direct_reuse_no_spawn (s0 : State) (env : Env) (w : ConnectWorld)
    (d : Nat) :
    (∀ path : String, env.use_chrome = some path →
      w.directOpen Browser.chrome (env.webdriver_port.getD "9515") = some d →
      s0.child_driver = none →
      (browser_connect s0 env w).2.1.child_driver = none
      ∧ (browser_connect s0 env w).2.2 =
          [ConnectEvent.triedDirect Browser.chrome (env.webdriver_port.getD "9515"),
            ConnectEvent.navigated d DEFAULT_URI]
      ∧ (∀ e ∈ (browser_connect s0 env w).2.2, e.isSpawn = false)
      ∧ (w.goto d = Except.ok () → (browser_connect s0 env w).2.1.driver = some d))
    ∧ (∀ path : String, env.use_chrome = none → env.use_firefox = some path →
      w.directOpen Browser.firefox (env.webdriver_port.getD "4444") = some d →
      s0.child_driver = none →
      (browser_connect s0 env w).2.1.child_driver = none
      ∧ (browser_connect s0 env w).2.2 =
          [ConnectEvent.triedDirect Browser.firefox (env.webdriver_port.getD "4444"),
            ConnectEvent.navigated d DEFAULT_URI]
      ∧ (∀ e ∈ (browser_connect s0 env w).2.2, e.isSpawn = false)
      ∧ (w.goto d = Except.ok () → (browser_connect s0 env w).2.1.driver = some d)) := by
  constructor
  · intro path hc hdo hnone
    have hbc : browser_connect s0 env w =
        connectFinish { s0 with rt := some () } d w
          [ConnectEvent.triedDirect Browser.chrome (env.webdriver_port.getD "9515")] := by
      simp only [browser_connect, hc, connectWithBackend, hdo]
    obtain ⟨h1, h2, h3⟩ := connectFinish_child { s0 with rt := some () } d w
      [ConnectEvent.triedDirect Browser.chrome (env.webdriver_port.getD "9515")]
    rw [hbc]
    refine ⟨?_, ?_, ?_, h3⟩
    · rw [h1]; exact hnone
    · rw [h2]; rfl
    · rw [h2]
      intro e he
      simp at he
      rcases he with rfl | rfl <;> rfl
  · intro path hc hf hdo hnone
    have hbc : browser_connect s0 env w =
        connectFinish { s0 with rt := some () } d w
          [ConnectEvent.triedDirect Browser.firefox (env.webdriver_port.getD "4444")] := by
      simp only [browser_connect, hc, hf, connectWithBackend, hdo]
    obtain ⟨h1, h2, h3⟩ := connectFinish_child { s0 with rt := some () } d w
      [ConnectEvent.triedDirect Browser.firefox (env.webdriver_port.getD "4444")]
    rw [hbc]
    refine ⟨?_, ?_, ?_, h3⟩
    · rw [h1]; exact hnone
    · rw [h2]; rfl
    · rw [h2]
      intro e he
      simp at he
      rcases he with rfl | rfl <;> rfl

/-- Witness for C7 at a concrete environment and world where the direct
open succeeds with driver 1. -/
theorem connect_direct_reuse_no_spawn_witness :
    (browser_connect State.default ⟨some "cd", none, none, none, none, none, none⟩
        ⟨fun _ _ => some 1, fun _ _ => Except.error "no",
          fun _ _ _ => Except.error "no", fun _ => Except.ok ()⟩).2.1.child_driver = none
    ∧ (browser_connect State.default ⟨some "cd", none, none, none, none, none, none⟩
        ⟨fun _ _ => some 1, fun _ _ => Except.error "no",
          fun _ _ _ => Except.error "no", fun _ => Except.ok ()⟩).2.2 =
        [ConnectEvent.triedDirect Browser.chrome "9515",
          ConnectEvent.navigated 1 DEFAULT_URI]
    ∧ (∀ e ∈ (browser_connect State.default
          ⟨some "cd", none, none, none, none, none, none⟩
          ⟨fun _ _ => some 1, fun _ _ => Except.error "no",
            fun _ _ _ => Except.error "no", fun _ => Except.ok ()⟩).2.2,
        e.isSpawn = false)
    ∧ ((⟨fun _ _ => some 1, fun _ _ => Except.error "no",
          fun _ _ _ => Except.error "no", fun _ => Except.ok ()⟩ :
            ConnectWorld).goto 1 = Except.ok () →
        (browser_connect State.default ⟨some "cd", none, none, none, none, none, none⟩
          ⟨fun _ _ => some 1, fun _ _ => Except.error "no",
            fun _ _ _ => Except.error "no", fun _ => Except.ok ()⟩).2.1.driver = some 1) :=
  (connect_direct_reuse_no_spawn State.default
    ⟨some "cd", none, none, none, none, none, none⟩
    ⟨fun _ _ => some 1, fun _ _ => Except.error "no",
      fun _ _ _ => Except.error "no", fun _ => Except.ok ()⟩ 1).1 "cd" rfl rfl rfl

/-- C8: with neither backend configured, `browser-connect` fails with the
exact not-implemented message, performs no effect (empty trace, so no
spawn), stores no session and records no child process (only the runtime
field is set). -/
theorem connect_no_backend_fails (s0 : State) (env : Env) (w : ConnectWorld)
    (hc : env.use_chrome = none) (hf : env.use_firefox = none) :
    browser_connect s0 env w =
      (Except.error notImplementedMessage, { s0 with rt := some () }, [])
    ∧ (browser_connect s0 env w).2.1.child_driver = s0.child_driver
    ∧ (browser_connect s0 env w).2.1.driver = s0.driver := by
  have h : browser_connect s0 env w =
      (Except.error notImplementedMessage, { s0 with rt := some () }, []) := by
    simp only [browser_connect, hc, hf]
  exact ⟨h, by rw [h], by rw [h]⟩

/-- Witness for C8 at the default state and an empty environment. -/
theorem connect_no_backend_fails_witness :
    browser_connect State.default ⟨none, none, none, none, none, none, none⟩
        ⟨fun _ _ => none, fun _ _ => Except.error "no",
          fun _ _ _ => Except.error "no", fun _ => Except.ok ()⟩ =
      (Except.error notImplementedMessage,
        { State.default with rt := some () }, []) :=
  (connect_no_backend_fails State.default ⟨none, none, none, none, none, none, none⟩
    ⟨fun _ _ => none, fun _ _ => Except.error "no",
      fun _ _ _ => Except.error "no", fun _ => Except.ok ()⟩ rfl rfl).1

/-- C10: when both backends are configured, `browser-connect` behaves
exactly as if the firefox configuration were absent (its driver path,
port default and argument strings are never consulted), and it selects
the chrome backend: the trace starts with the direct chrome try against
the chrome port. -/
theorem connect_prefers_chrome (s0 : State) (env : Env) (w : ConnectWorld)
    (path ff : String) (hc : env.use_chrome = some path)
    (hf : env.use_firefox = some ff) :
    browser_connect s0 env w =
      browser_connect s0
        { env with
            use_firefox := none
            geckodriver_args := none
            firefox_args := none } w
    ∧ ∃ rest : List ConnectEvent,
        (browser_connect s0 env w).2.2 =
          ConnectEvent.triedDirect Browser.chrome
            (env.webdriver_port.getD "9515") :: rest := by
  constructor
  · simp only [browser_connect, hc]
  · have hbc : browser_connect s0 env w =
        connectWithBackend { s0 with rt := some () } Browser.chrome path
          (env.webdriver_port.getD "9515") (env.chromedriver_args.getD "")
          (env.chrome_args.getD "") "Failed to start chromedriver: " w := by
      simp only [browser_connect, hc]
    rw [hbc]
    exact connectWithBackend_trace_head { s0 with rt := some () } Browser.chrome path
      (env.webdriver_port.getD "9515") (env.chromedriver_args.getD "")
      (env.chrome_args.getD "") "Failed to start chromedriver: " w

/-- Witness for C10 at a concrete doubly-configured environment. -/
theorem connect_prefers_chrome_witness :
    browser_connect State.default ⟨some "cd", some "gd", none, none, none, none, none⟩
        ⟨fun _ _ => some 1, fun _ _ => Except.error "no",
          fun _ _ _ => Except.error "no", fun _ => Except.ok ()⟩ =
      browser_connect State.default ⟨some "cd", none, none, none, none, none, none⟩
        ⟨fun _ _ => some 1, fun _ _ => Except.error "no",
          fun _ _ _ => Except.error "no", fun _ => Except.ok ()⟩
    ∧ ∃ rest : List ConnectEvent,
        (browser_connect State.default
          ⟨some "cd", some "gd", none, none, none, none, none⟩
          ⟨fun _ _ => some 1, fun _ _ => Except.error "no",
            fun _ _ _ => Except.error "no", fun _ => Except.ok ()⟩).2.2 =
          ConnectEvent.triedDirect Browser.chrome "9515" :: rest :=
  connect_prefers_chrome State.default
    ⟨some "cd", some "gd", none, none, none, none, none⟩
    ⟨fun _ _ => some 1, fun _ _ => Except.error "no",
      fun _ _ _ => Except.error "no", fun _ => Except.ok ()⟩ "cd" "gd" rfl rfl

end TestangelBrowser
